import Mathlib

/-!
Shallow embedding of the CRM MCP server core (src/main.py): the JSON-RPC
dispatcher `handle_mcp_request`, the record filter `get_filtered_data`, the
formatter `format_lead_response`, and the add-lead row builder.  Records are
field-name to value maps with string values (Python coerces every cell with
str(...) before matching); the Google-Sheets store is modelled as a header
row plus raw rows, with two failure modes: not configured (USE_GOOGLE_SHEETS
false) and configured but unreachable (every sheet call raises).
-/

namespace CrmMcp

/-- A JSON value, used for request ids and for the reply envelopes the
dispatcher builds with JSONResponse. -/
inductive JVal where
  | jstr (s : String)
  | jnum (n : Int)
  | jbool (b : Bool)
  | jnull
  | jarr (xs : List JVal)
  | jobj (fs : List (String × JVal))

/-- Field lookup on a JSON object; none on non-objects or missing keys. -/
def JVal.getObj : JVal → String → Option JVal
  | .jobj fs, k => (fs.find? (fun p => p.1 == k)).map (fun p => p.2)
  | _, _ => none

/-- Python str.lower, restricted to the ASCII data the sheet holds. -/
def lowerStr (s : String) : String :=
  String.mk (s.data.map Char.toLower)

/-- The needle is an initial segment of the haystack (character lists). -/
def leadsWith : List Char → List Char → Bool
  | [], _ => true
  | _ :: _, [] => false
  | a :: as, b :: bs => a == b && leadsWith as bs

/-- Contiguous-substring test on character lists, as Python in on str. -/
def subList (needle : List Char) : List Char → Bool
  | [] => needle.isEmpty
  | b :: bs => leadsWith needle (b :: bs) || subList needle bs

/-- Python needle in hay on strings. -/
def strIn (needle hay : String) : Bool :=
  subList needle.data hay.data

/-- One sheet row as read by get_all_records: field name to string value. -/
abbrev Record := List (String × String)

/-- Python row.get(key, dflt): the stored value when the key is present,
the default when it is absent. -/
def getFieldD (row : Record) (key dflt : String) : String :=
  match row.find? (fun p => p.1 == key) with
  | some p => p.2
  | none => dflt

/-- Python row.get(key): some value when present, none when absent. -/
def findVal (row : Record) (key : String) : Option String :=
  (row.find? (fun p => p.1 == key)).map (fun p => p.2)

/-- One (key, value) constraint from the filter loop of get_filtered_data
(src/main.py lines 74-86).  An empty value imposes no constraint (Python
skips falsy values); the Providers key has its own branch in the source,
whose test is the same lower-cased substring check as the generic branch. -/
def pairOk (row : Record) (kv : String × String) : Bool :=
  if kv.2 == "" then true
  else if kv.1 == "Providers" then
    strIn (lowerStr kv.2) (lowerStr (getFieldD row kv.1 ""))
  else
    strIn (lowerStr kv.2) (lowerStr (getFieldD row kv.1 ""))

/-- The per-row conjunction of all filter constraints (the inner loop with
its early break, which for a pure test equals List.all). -/
def rowMatches (filters : List (String × String)) (row : Record) : Bool :=
  filters.all (pairOk row)

/-- The pure core of get_filtered_data: keep exactly the matching rows. -/
def filterRecords (rows : List Record) (filters : List (String × String)) :
    List Record :=
  rows.filter (fun row => rowMatches filters row)

/-- The filter rule as the spec words it: every pair with a non-empty value
requires the lower-cased value to be a substring of the lower-cased field
(missing field read as empty string), one uniform rule for every key. -/
def specMatches (filters : List (String × String)) (row : Record) : Bool :=
  filters.all (fun kv =>
    kv.2 == "" || strIn (lowerStr kv.2) (lowerStr (getFieldD row kv.1 "")))

/-- The fixed zero-match literal of format_lead_response. -/
def noLeadsText : String :=
  "No leads found matching the specified criteria. Please ensure the Google Sheets connection is configured and contains data."

/-- One paragraph of format_lead_response for lead number i (the body of the
enumerate loop, src/main.py lines 100-112): a fixed sequence of projections,
each absent field rendered as the placeholder N/A, with the Providers line
only when that field is present and non-empty. -/
def leadBlock (i : Nat) (lead : Record) : String :=
  "**" ++ toString i ++ ". " ++ getFieldD lead "TeamName" "N/A" ++
    " (Tag: " ++ getFieldD lead "TagId" "N/A" ++ ")**\n" ++
  "   - Domain: " ++ getFieldD lead "Domain" "N/A" ++ "\n" ++
  "   - Platform: " ++ getFieldD lead "Platform" "N/A" ++ "\n" ++
  "   - Status: " ++ getFieldD lead "Status" "N/A" ++ "\n" ++
  "   - Billing Type: " ++ getFieldD lead "BillingType" "N/A" ++ "\n" ++
  "   - Type: " ++ getFieldD lead "Type" "N/A" ++ "\n" ++
  "   - Cart Recovery: " ++ getFieldD lead "CartRecoveryMode" "N/A" ++ "\n" ++
  "   - Revenue: " ++ getFieldD lead "Revenue" "N/A" ++ "\n" ++
  "   - Potential Revenue: " ++ getFieldD lead "PotentialRevenue" "N/A" ++ "\n" ++
  "   - Created: " ++ getFieldD lead "CreatedAt" "N/A" ++ "\n" ++
  (if getFieldD lead "Providers" "" ≠ "" then
    "   - Providers: " ++ getFieldD lead "Providers" "N/A" ++ "\n"
  else "") ++
  "\n"

/-- The enumerate loop of format_lead_response, numbering from i. -/
def leadBlocks : Nat → List Record → String
  | _, [] => ""
  | i, l :: ls => leadBlock i l ++ leadBlocks (i + 1) ls

/-- format_lead_response (src/main.py lines 92-114). -/
def format_lead_response (leads : List Record) : String :=
  if leads.isEmpty then noLeadsText
  else "Found " ++ toString leads.length ++ " leads:\n\n" ++ leadBlocks 1 leads

/-- The Google sheet: a header row of column names and the raw data rows
below it (the shape gspread exposes through get_all_records / append_row). -/
structure Sheet where
  header : List String
  rowsRaw : List (List String)

/-- get_all_records: one record per raw row, zipping the header names with
the row values. -/
def Sheet.records (s : Sheet) : List Record :=
  s.rowsRaw.map (fun r => s.header.zip r)

/-- The record-store state the handler sees: connected is USE_GOOGLE_SHEETS
(and a live client), reachable says whether sheet calls succeed or raise,
and errText is the text of the exception raised when they do not. -/
structure Store where
  connected : Bool
  reachable : Bool
  sheet : Sheet
  errText : String

/-- get_filtered_data (src/main.py lines 58-90): empty result when the
store is not configured, empty result when the fetch raises (the except
branch), otherwise the filtered records. -/
def get_filtered_data (st : Store) (filters : List (String × String)) :
    List Record :=
  if st.connected then
    if st.reachable then filterRecords st.sheet.records filters else []
  else []

/-- The arguments of a tools/call: the string-valued arguments as a
key-value list, with the integer limit argument carried separately. -/
structure ToolArgs where
  strs : List (String × String)
  limit : Option Int

/-- Python tool_args.get(key): some value when the key is present. -/
def lookupArg (a : ToolArgs) (key : String) : Option String :=
  (a.strs.find? (fun p => p.1 == key)).map (fun p => p.2)

/-- Python tool_args.get(key, dflt). -/
def argD (a : ToolArgs) (key dflt : String) : String :=
  (lookupArg a key).getD dflt

/-- Python str formatting of a value that may be None. -/
def pyOpt (o : Option String) : String :=
  o.getD "None"

/-- One conditional filter entry of the get_crm_leads branch: added only
when the argument is present and truthy (non-empty). -/
def addIf (a : ToolArgs) (argKey filterKey : String) :
    List (String × String) :=
  match lookupArg a argKey with
  | some v => if v ≠ "" then [(filterKey, v)] else []
  | none => []

/-- The filter dict built by get_crm_leads (src/main.py lines 349-361),
in source order. -/
def filtersFor (a : ToolArgs) : List (String × String) :=
  addIf a "platform" "Platform" ++ addIf a "billingtype" "BillingType" ++
  addIf a "type" "Type" ++ addIf a "cartrecoverymode" "CartRecoveryMode" ++
  addIf a "providers" "Providers" ++ addIf a "domain" "Domain"

/-- The lead list get_crm_leads computes (src/main.py lines 363-368):
filter, then slice to the first limit records when limit (default 10) is a
positive number; a zero or negative limit leaves the list untruncated. -/
def getCrmLeadsData (st : Store) (a : ToolArgs) : List Record :=
  let limit := a.limit.getD 10
  let leads := get_filtered_data st (filtersFor a)
  if limit ≠ 0 ∧ 0 < limit then leads.take limit.toNat else leads

/-- The replacement body returned by get_crm_leads when the store is not
configured (src/main.py line 374). -/
def notConnectedText : String :=
  "⚠️ **Google Sheets not connected!**\n\nThe server is not connected to Google Sheets. Please ensure:\n1. GOOGLE_CLIENT_JSON environment variable is set on Railway\n2. The service account has access to your Google Sheet\n3. The sheet name is \x27mcp\x27 with tab \x27Sheet1\x27\n\nCurrently returning empty results."

/-- The text body of the get_crm_leads reply: the formatted leads, replaced
wholesale by the not-connected notice when the store is not configured. -/
def getCrmLeadsText (st : Store) (a : ToolArgs) : String :=
  let t := format_lead_response (getCrmLeadsData st a)
  if st.connected then t else notConnectedText

/-- The soft-failure body of add_crm_lead when the store is not configured
(src/main.py line 398). -/
def cannotAddText : String :=
  "❌ Cannot add lead: Google Sheets not connected. Please configure GOOGLE_CLIENT_JSON environment variable."

/-- The 30-column row add_crm_lead appends (src/main.py lines 408-439), in
sheet column order: TagId, TeamName, Domain, CreatedAt, Versions,
LastDeployment, Platform, Status, OperationType, Providers, Plugins,
BillingType, Type, Contacts, CartRecoveryMode, then the fourteen numeric
counters, then the created time again. -/
def buildNewRow (a : ToolArgs) (now : String) : List String :=
  [""
  , argD a "teamname" ""
  , argD a "domain" ""
  , now
  , ""
  , ""
  , argD a "platform" ""
  , "Active"
  , ""
  , ""
  , ""
  , argD a "billingtype" "CONTRACT"
  , argD a "type" "1P"
  , argD a "contacts" ""
  , "N/A"
  , "0", "0", "0", "0", "0", "0", "0"
  , "0", "0", "0", "0", "0", "0", "0"
  , now]

/-- The success body of add_crm_lead (src/main.py line 450). -/
def addSuccessText (a : ToolArgs) : String :=
  "✅ **Lead Added Successfully!**\n\n**Details:**\n- Team: " ++
    pyOpt (lookupArg a "teamname") ++
  "\n- Domain: " ++ pyOpt (lookupArg a "domain") ++
  "\n- Platform: " ++ pyOpt (lookupArg a "platform") ++
  "\n- Billing: " ++ argD a "billingtype" "CONTRACT" ++
  "\n- Type: " ++ argD a "type" "1P" ++
  "\n- Contacts: " ++ argD a "contacts" "N/A"

/-- The filter dict built by export_crm_leads (src/main.py lines 468-478):
the capitalised key for platform and type, explicit names for the rest. -/
def exportFilters (a : ToolArgs) : List (String × String) :=
  addIf a "platform" "Platform" ++ addIf a "billingtype" "BillingType" ++
  addIf a "type" "Type" ++ addIf a "cartrecoverymode" "CartRecoveryMode" ++
  addIf a "providers" "Providers"

/-- One CSV line of the export (src/main.py line 499). -/
def csvLine (lead : Record) : String :=
  getFieldD lead "TagId" "" ++ "," ++ getFieldD lead "TeamName" "" ++ "," ++
  getFieldD lead "Domain" "" ++ "," ++ getFieldD lead "Platform" "" ++ "," ++
  getFieldD lead "BillingType" "" ++ "," ++ getFieldD lead "Type" "" ++ "," ++
  getFieldD lead "CartRecoveryMode" "" ++ "," ++
  getFieldD lead "Revenue" "" ++ "," ++ getFieldD lead "Contacts" "" ++ "\n"

/-- Concatenation of the per-lead CSV lines. -/
def csvLines : List Record → String
  | [] => ""
  | l :: ls => csvLine l ++ csvLines ls

/-- The text body of the export_crm_leads reply (src/main.py 480-512). -/
def exportText (st : Store) (a : ToolArgs) : String :=
  let leads := get_filtered_data st (exportFilters a)
  if leads.isEmpty then
    "No leads found to export with the specified filters."
  else
    let csv :=
      "TagId,TeamName,Domain,Platform,BillingType,Type,CartRecoveryMode,Revenue,Contacts\n"
        ++ csvLines leads
    "✅ Exported " ++ toString leads.length ++
      " leads to CSV format:\n\n```csv\n" ++ csv.take 500 ++
      (if csv.length > 500 then "..." else "") ++
      "\n```\n\n(Showing first 500 characters)"

/-- A JSON-Schema string property with a description. -/
def propStr (desc : String) : JVal :=
  .jobj [("type", .jstr "string"), ("description", .jstr desc)]

/-- A JSON-Schema string property with a description and an enum. -/
def propEnum (desc : String) (vals : List String) : JVal :=
  .jobj [("type", .jstr "string"), ("description", .jstr desc),
         ("enum", .jarr (vals.map .jstr))]

/-- A JSON-Schema string property with description, enum and default. -/
def propEnumD (desc : String) (vals : List String) (dflt : String) : JVal :=
  .jobj [("type", .jstr "string"), ("description", .jstr desc),
         ("enum", .jarr (vals.map .jstr)), ("default", .jstr dflt)]

/-- The get_crm_leads descriptor (src/main.py lines 228-269). -/
def getCrmLeadsTool : JVal :=
  .jobj [("name", .jstr "get_crm_leads"),
    ("description", .jstr "Retrieve leads from Google Sheets CRM with filtering options. Filters: platform (WOOCOMMERCE/SHOPIFY/EDGETAG/BIGCOMMERCE/SALESFORCE), billingtype (USAGE/SHOPIFY/CONTRACT/FREE), type (1P/2P), cartrecoverymode (N/A/disabled/enabled/preview/ab-test), providers (partial match)"),
    ("inputSchema", .jobj [("type", .jstr "object"),
      ("properties", .jobj [
        ("platform", propEnum "Filter by platform: WOOCOMMERCE, SHOPIFY, EDGETAG, BIGCOMMERCE, SALESFORCE"
          ["WOOCOMMERCE", "SHOPIFY", "EDGETAG", "BIGCOMMERCE", "SALESFORCE"]),
        ("billingtype", propEnum "Filter by billing type: USAGE, SHOPIFY, CONTRACT, FREE"
          ["USAGE", "SHOPIFY", "CONTRACT", "FREE"]),
        ("type", propEnum "Filter by type: 1P or 2P" ["1P", "2P"]),
        ("cartrecoverymode", propEnum "Filter by cart recovery mode: N/A, disabled, enabled, preview, ab-test"
          ["N/A", "disabled", "enabled", "preview", "ab-test"]),
        ("providers", propStr "Filter by provider (partial match): attentive, bing, blotoutWallet, customersAI, facebook, gcpPubSub, googleAdsClicks, googleAnalytics4, klaviyo, outOfTheBlue, pinterest, reddit, shopGPT, shopify, snapchat, tiktok, yotpo"),
        ("domain", propStr "Filter by domain (partial match)"),
        ("limit", .jobj [("type", .jstr "integer"),
          ("description", .jstr "Maximum number of leads to return"),
          ("default", .jnum 10)])])])]

/-- The add_crm_lead descriptor (src/main.py lines 270-308), whose schema
declares teamname, domain and platform required. -/
def addCrmLeadTool : JVal :=
  .jobj [("name", .jstr "add_crm_lead"),
    ("description", .jstr "Add a new lead to the Google Sheets CRM"),
    ("inputSchema", .jobj [("type", .jstr "object"),
      ("properties", .jobj [
        ("teamname", propStr "Team name"),
        ("domain", propStr "Domain name"),
        ("platform", propEnum "Platform: WOOCOMMERCE, SHOPIFY, EDGETAG, BIGCOMMERCE, SALESFORCE"
          ["WOOCOMMERCE", "SHOPIFY", "EDGETAG", "BIGCOMMERCE", "SALESFORCE"]),
        ("billingtype", propEnumD "Billing type: USAGE, SHOPIFY, CONTRACT, FREE"
          ["USAGE", "SHOPIFY", "CONTRACT", "FREE"] "CONTRACT"),
        ("type", propEnumD "Type: 1P or 2P" ["1P", "2P"] "1P"),
        ("contacts", propStr "Contact information")]),
      ("required", .jarr [.jstr "teamname", .jstr "domain", .jstr "platform"])])]

/-- The export_crm_leads descriptor (src/main.py lines 309-337). -/
def exportCrmLeadsTool : JVal :=
  .jobj [("name", .jstr "export_crm_leads"),
    ("description", .jstr "Export filtered leads to CSV format"),
    ("inputSchema", .jobj [("type", .jstr "object"),
      ("properties", .jobj [
        ("platform", propStr "Filter by platform"),
        ("billingtype", propStr "Filter by billing type"),
        ("type", propStr "Filter by type"),
        ("cartrecoverymode", propStr "Filter by cart recovery mode"),
        ("providers", propStr "Filter by provider")])])]

/-- The tools/list result payload. -/
def toolsListResult : JVal :=
  .jobj [("tools", .jarr [getCrmLeadsTool, addCrmLeadTool, exportCrmLeadsTool])]

/-- A decoded MCP request: body.get of method and id, params.get of name,
and params.get of arguments. -/
structure MCPRequest where
  method : Option String
  rid : JVal
  toolName : Option String
  args : ToolArgs

/-- What one dispatch produces: the JSON reply written back (none would
mean no response is written) and the store after any append. -/
structure DispatchOut where
  reply : Option JVal
  store : Store

/-- A success envelope wrapping a single text content block. -/
def textResult (rid : JVal) (text : String) : JVal :=
  .jobj [("jsonrpc", .jstr "2.0"), ("id", rid),
    ("result", .jobj [("content",
      .jarr [.jobj [("type", .jstr "text"), ("text", .jstr text)]])])]

/-- An error envelope with a code and message. -/
def errEnvelope (rid : JVal) (code : Int) (msg : String) : JVal :=
  .jobj [("jsonrpc", .jstr "2.0"), ("id", rid),
    ("error", .jobj [("code", .jnum code), ("message", .jstr msg)])]

/-- The initialize reply (src/main.py lines 192-205). -/
def initReply (rid : JVal) : JVal :=
  .jobj [("jsonrpc", .jstr "2.0"), ("id", rid),
    ("result", .jobj [
      ("protocolVersion", .jstr "2025-06-18"),
      ("capabilities", .jobj [("tools", .jobj [])]),
      ("serverInfo", .jobj [("name", .jstr "crm-mcp-server"),
        ("version", .jstr "7.0.0")])])]

/-- The reply written for notifications/initialized (src/main.py lines
213-219): a result with a tool-discovery hint, and no id field at all. -/
def notifReply : JVal :=
  .jobj [("jsonrpc", .jstr "2.0"),
    ("result", .jobj [
      ("hint", .jstr "Tools available: get_crm_leads, add_crm_lead. Use tools/list to discover them."),
      ("tools_ready", .jbool true)])]

/-- The tools/list reply. -/
def toolsListReply (rid : JVal) : JVal :=
  .jobj [("jsonrpc", .jstr "2.0"), ("id", rid), ("result", toolsListResult)]

/-- The tools/call branch of the dispatcher (src/main.py lines 342-522).
The add branch mirrors the source: soft text when the store is not
configured; otherwise the try block, which appends and reports success
when the sheet call goes through, and returns the -32603 error built from
the raised exception when it does not. -/
def handleToolsCall (st : Store) (now : String) (req : MCPRequest) :
    DispatchOut :=
  match req.toolName with
  | some "get_crm_leads" =>
    { reply := some (textResult req.rid (getCrmLeadsText st req.args)),
      store := st }
  | some "add_crm_lead" =>
    if st.connected then
      if st.reachable then
        { reply := some (textResult req.rid (addSuccessText req.args)),
          store := { st with sheet := { st.sheet with
            rowsRaw := st.sheet.rowsRaw ++ [buildNewRow req.args now] } } }
      else
        { reply := some (errEnvelope req.rid (-32603)
            ("Failed to add lead: " ++ st.errText)), store := st }
    else
      { reply := some (textResult req.rid cannotAddText), store := st }
  | some "export_crm_leads" =>
    { reply := some (textResult req.rid (exportText st req.args)),
      store := st }
  | _ =>
    { reply := some (errEnvelope req.rid (-32601)
        ("Unknown tool: " ++ pyOpt req.toolName)), store := st }

/-- handle_mcp_request (src/main.py lines 180-546): exact case-sensitive
dispatch on the method string, with the fall-through -32601 error for
everything else.  Every branch writes a reply. -/
def handle_mcp_request (st : Store) (now : String) (req : MCPRequest) :
    DispatchOut :=
  match req.method with
  | some "initialize" => { reply := some (initReply req.rid), store := st }
  | some "notifications/initialized" => { reply := some notifReply, store := st }
  | some "tools/list" =>
    { reply := some (toolsListReply req.rid), store := st }
  | some "tools/call" => handleToolsCall st now req
  | _ =>
    { reply := some (errEnvelope req.rid (-32601)
        ("Method \x27" ++ pyOpt req.method ++ "\x27 not found")), store := st }

/-- The field names format_lead_response projects, in its fixed display
order. -/
def displayKeys : List String :=
  ["TeamName", "TagId", "Domain", "Platform", "Status", "BillingType",
   "Type", "CartRecoveryMode", "Revenue", "PotentialRevenue", "CreatedAt",
   "Providers"]

/-- The argument names the add_crm_lead body reads. -/
def addArgKeys : List String :=
  ["teamname", "domain", "platform", "billingtype", "type", "contacts"]

/-- The method strings the dispatcher handles. -/
def handledMethods : List String :=
  ["initialize", "notifications/initialized", "tools/list", "tools/call"]

/-- The tool names the tools/call branch handles. -/
def handledTools : List String :=
  ["get_crm_leads", "add_crm_lead", "export_crm_leads"]

/-- A small healthy store used for concrete evaluations. -/
def exStore : Store :=
  { connected := true, reachable := true,
    sheet := { header := ["TeamName", "Domain", "Platform"],
               rowsRaw := [["A", "tech.com", "SHOPIFY"],
                           ["B", "shop.io", "WOOCOMMERCE"]] },
    errText := "" }

/-- A connected store holding 101 records, for the limit counterexample. -/
def bigStore : Store :=
  { connected := true, reachable := true,
    sheet := { header := ["Domain"], rowsRaw := List.replicate 101 ["x"] },
    errText := "" }

/-- A configured store whose sheet calls raise. -/
def brokenStore : Store :=
  { connected := true, reachable := false,
    sheet := { header := ["Domain"], rowsRaw := [] }, errText := "boom" }

/-- Empty tool arguments. -/
def noArgs : ToolArgs := { strs := [], limit := none }

/-- Two records with the same fields in different insertion order. -/
def reorderedA : Record := [("Domain", "d.com"), ("TeamName", "T")]

/-- The same fields as reorderedA, listed the other way round. -/
def reorderedB : Record := [("TeamName", "T"), ("Domain", "d.com")]

/-- An add_crm_lead call carrying no arguments at all. -/
def emptyAddReq : MCPRequest :=
  { method := some "tools/call", rid := .jnum 3,
    toolName := some "add_crm_lead", args := noArgs }

/-- Arguments for an add call that leave billingtype and type absent. -/
def plainAddArgs : ToolArgs :=
  { strs := [("teamname", "T"), ("domain", "d"), ("platform", "SHOPIFY")],
    limit := none }

end CrmMcp

namespace CrmMcp

example : strIn "tech" "Tech Corp" = false := by decide
example : strIn (lowerStr "TECH") (lowerStr "Tech Corp") = true := by decide
example : filterRecords
    [[("name", "John"), ("domain", "tech")], [("name", "Jane"), ("domain", "finance")]]
    [("domain", "tech")] = [[("name", "John"), ("domain", "tech")]] := by decide
example : exStore.sheet.records =
    [[("TeamName", "A"), ("Domain", "tech.com"), ("Platform", "SHOPIFY")],
     [("TeamName", "B"), ("Domain", "shop.io"), ("Platform", "WOOCOMMERCE")]] := by decide

/-- Each filter pair test of the source equals the uniform spec rule: an
empty value passes, any other value requires the lower-cased substring
match; the Providers branch performs the identical check. -/
theorem pairOk_eq_spec (row : Record) (kv : String × String) :
    pairOk row kv =
      (kv.2 == "" || strIn (lowerStr kv.2) (lowerStr (getFieldD row kv.1 ""))) := by
  unfold pairOk
  cases h2 : kv.2 == "" <;> cases h1 : kv.1 == "Providers" <;> simp [h2, h1]

/-- The per-row match of the source equals the spec-worded match. -/
theorem rowMatches_eq_spec (filters : List (String × String)) (row : Record) :
    rowMatches filters row = specMatches filters row := by
  unfold rowMatches specMatches
  have h : pairOk row = fun kv =>
      (kv.2 == "" || strIn (lowerStr kv.2) (lowerStr (getFieldD row kv.1 ""))) :=
    funext (fun kv => pairOk_eq_spec row kv)
  rw [h]

/-- Claim C2: the filter returns exactly the records satisfying, for every
pair with a non-empty value, the case-insensitive substring rule with a
missing field read as empty; the constraints are conjunctive, and the
Providers key is decided by the very same rule as every other key. -/
theorem filter_agrees_with_spec_rule (rows : List Record)
    (filters : List (String × String)) :
    filterRecords rows filters = rows.filter (fun r => specMatches filters r) ∧
    (∀ r, r ∈ filterRecords rows filters ↔
      r ∈ rows ∧ specMatches filters r = true) := by
  have hfun : (fun r => rowMatches filters r) =
      (fun r => specMatches filters r) :=
    funext (fun r => rowMatches_eq_spec filters r)
  constructor
  · unfold filterRecords
    rw [hfun]
  · intro r
    unfold filterRecords
    rw [hfun, List.mem_filter]

/-- Claim C9: a filter spec whose values are all empty keeps every record
in its original position. -/
theorem empty_filters_identity (rows : List Record)
    (filters : List (String × String)) (h : ∀ kv ∈ filters, kv.2 = "") :
    filterRecords rows filters = rows := by
  unfold filterRecords
  apply List.filter_eq_self.mpr
  intro r _
  unfold rowMatches
  apply List.all_eq_true.mpr
  intro kv hkv
  simp [pairOk, h kv hkv]

/-- Witness for empty_filters_identity at a concrete record list and an
all-empty spec. -/
theorem empty_filters_identity_witness :
    (∀ kv ∈ [(("Domain" : String), ("" : String))], kv.2 = "") ∧
    filterRecords [[("TeamName", "A")], [("TeamName", "B")]] [("Domain", "")] =
      [[("TeamName", "A")], [("TeamName", "B")]] :=
  ⟨by decide, empty_filters_identity _ _ (by decide)⟩

/-- Claim C1 counterexample: the dispatcher does write a reply for the
notifications/initialized notification, refuting the claim that dispatch
returns none there. -/
theorem notif_initialized_reply_exists :
    ((handle_mcp_request exStore "2024-01-01 00:00:00"
      { method := some "notifications/initialized", rid := .jnull,
        toolName := none, args := noArgs }).reply).isSome = true := rfl

/-- Claim C1 (amended): dispatch of notifications/initialized always writes
a reply envelope, namely the fixed hint result, which carries a result
field but no id field; the store is unchanged. -/
theorem notif_initialized_reply_shape (st : Store) (now : String) (rid : JVal)
    (tn : Option String) (a : ToolArgs) :
    (handle_mcp_request st now
        { method := some "notifications/initialized", rid := rid,
          toolName := tn, args := a }).reply = some notifReply ∧
    (handle_mcp_request st now
        { method := some "notifications/initialized", rid := rid,
          toolName := tn, args := a }).store = st ∧
    notifReply.getObj "id" = none ∧
    (notifReply.getObj "result").isSome = true :=
  ⟨rfl, rfl, rfl, rfl⟩

/-- Claim C6 counterexample: a ping request is answered with a -32601
error envelope carrying no result, refuting the claim that ping returns an
acknowledgement result. -/
theorem ping_yields_method_not_found :
    (handle_mcp_request exStore "2024-01-01 00:00:00"
        { method := some "ping", rid := .jnum 1, toolName := none,
          args := noArgs }).reply =
      some (errEnvelope (.jnum 1) (-32601) "Method \x27ping\x27 not found") ∧
    (errEnvelope (.jnum 1) (-32601) "Method \x27ping\x27 not found").getObj
        "result" = none :=
  ⟨rfl, rfl⟩

/-- Claim C3 counterexample: a limit of 101 returns 101 records (no clamp
to 100), and a limit of 0 suppresses truncation entirely instead of
defaulting to 10. -/
theorem limit_not_clamped_at_100 :
    (¬ ((getCrmLeadsData bigStore { strs := [], limit := some 101 }).length ≤ 100)) ∧
    (¬ ((getCrmLeadsData bigStore { strs := [], limit := some 0 }).length ≤ 10)) := by
  constructor <;> decide

/-- Claim C3 (amended): after filtering, the result is truncated to the
first limit records only when limit is a positive number; an absent limit
defaults to 10; a zero or negative limit disables truncation and the whole
filtered list is returned; there is no upper clamp. -/
theorem limit_truncation_behavior :
    (∀ st strs, getCrmLeadsData st { strs := strs, limit := none } =
      (get_filtered_data st (filtersFor { strs := strs, limit := none })).take 10) ∧
    (∀ st a l, a.limit = some l → 0 < l →
      (getCrmLeadsData st a).length ≤ l.toNat) ∧
    (∀ st a l, a.limit = some l → l ≤ 0 →
      getCrmLeadsData st a = get_filtered_data st (filtersFor a)) := by
  refine ⟨?_, ?_, ?_⟩
  · intro st strs
    unfold getCrmLeadsData
    norm_num
    rfl
  · intro st a l hl hpos
    unfold getCrmLeadsData
    rw [hl]
    simp only [Option.getD_some]
    rw [if_pos ⟨by omega, hpos⟩]
    simp only [List.length_take]
    omega
  · intro st a l hl hnonpos
    unfold getCrmLeadsData
    rw [hl]
    simp only [Option.getD_some]
    rw [if_neg]
    rintro ⟨h1, h2⟩
    omega

/-- Witness for limit_truncation_behavior with limit 5 on the 101-record
store. -/
theorem limit_truncation_behavior_witness :
    ((({ strs := [], limit := some 5 } : ToolArgs).limit = some 5) ∧ (0 : Int) < 5) ∧
    (getCrmLeadsData bigStore { strs := [], limit := some 5 }).length ≤ (5 : Int).toNat :=
  ⟨⟨rfl, by decide⟩,
    limit_truncation_behavior.2.1 bigStore { strs := [], limit := some 5 } 5 rfl (by decide)⟩

/-- The default-carrying lookup of getFieldD, written through findVal. -/
theorem getFieldD_eq_findVal (row : Record) (key dflt : String) :
    getFieldD row key dflt = (findVal row key).getD dflt := by
  unfold getFieldD findVal
  cases h : row.find? (fun p => p.1 == key) <;> simp [h]

/-- Claim C5: the formatter returns the fixed non-empty zero-match literal
on an empty list; each paragraph depends only on the projections at the
fixed display keys, so the record insertion order is irrelevant; a record
with no fields renders the N/A placeholder in every line; and a connected
dispatch whose filter matches nothing still answers with a success result
carrying that literal. -/
theorem formatter_properties :
    (format_lead_response [] = noLeadsText ∧ noLeadsText ≠ "") ∧
    (∀ i r r2, (∀ k ∈ displayKeys, findVal r k = findVal r2 k) →
      leadBlock i r = leadBlock i r2) ∧
    (leadBlock 1 [] =
      "**1. N/A (Tag: N/A)**\n   - Domain: N/A\n   - Platform: N/A\n   - Status: N/A\n   - Billing Type: N/A\n   - Type: N/A\n   - Cart Recovery: N/A\n   - Revenue: N/A\n   - Potential Revenue: N/A\n   - Created: N/A\n\n") ∧
    (∀ st now rid a, st.connected = true → getCrmLeadsData st a = [] →
      (handle_mcp_request st now
          { method := some "tools/call", rid := rid,
            toolName := some "get_crm_leads", args := a }).reply =
        some (textResult rid noLeadsText)) := by
  refine ⟨⟨rfl, by decide⟩, ?_, rfl, ?_⟩
  · intro i r r2 hag
    have h1 := hag "TeamName" (by simp [displayKeys])
    have h2 := hag "TagId" (by simp [displayKeys])
    have h3 := hag "Domain" (by simp [displayKeys])
    have h4 := hag "Platform" (by simp [displayKeys])
    have h5 := hag "Status" (by simp [displayKeys])
    have h6 := hag "BillingType" (by simp [displayKeys])
    have h7 := hag "Type" (by simp [displayKeys])
    have h8 := hag "CartRecoveryMode" (by simp [displayKeys])
    have h9 := hag "Revenue" (by simp [displayKeys])
    have h10 := hag "PotentialRevenue" (by simp [displayKeys])
    have h11 := hag "CreatedAt" (by simp [displayKeys])
    have h12 := hag "Providers" (by simp [displayKeys])
    simp only [leadBlock, getFieldD_eq_findVal, h1, h2, h3, h4, h5, h6, h7,
      h8, h9, h10, h11, h12]
  · intro st now rid a hconn hdata
    have hred : (handle_mcp_request st now
        { method := some "tools/call", rid := rid,
          toolName := some "get_crm_leads", args := a }).reply =
      some (textResult rid (getCrmLeadsText st a)) := rfl
    rw [hred]
    simp [getCrmLeadsText, hdata, hconn, format_lead_response]

/-- Witness for formatter_properties: two records listing the same fields
in opposite orders format identically. -/
theorem formatter_properties_witness :
    (∀ k ∈ displayKeys, findVal reorderedA k = findVal reorderedB k) ∧
    leadBlock 2 reorderedA = leadBlock 2 reorderedB :=
  ⟨by decide, formatter_properties.2.1 2 reorderedA reorderedB (by decide)⟩

/-- Claim C4 counterexample: an add_crm_lead call on a connected store with
every required argument missing returns a reply with no error member at
all, and a row is appended anyway, refuting the -32602 validation claim. -/
theorem add_missing_required_still_appends :
    ((handle_mcp_request exStore "2024-01-01 00:00:00" emptyAddReq).reply.bind
        (fun r => r.getObj "error")) = none ∧
    (handle_mcp_request exStore "2024-01-01 00:00:00" emptyAddReq).store.sheet.rowsRaw.length =
      exStore.sheet.rowsRaw.length + 1 :=
  ⟨rfl, rfl⟩

/-- Claim C4 (amended): the dispatcher performs no required-argument
validation at all: on a connected, reachable store every add_crm_lead call
returns the success text and appends one row, with absent arguments filled
by empty strings or schema defaults, and -32602 is never produced; unknown
extra arguments are ignored, since the appended row depends only on the six
argument names the body reads. -/
theorem add_no_validation (st : Store) (now : String) (rid : JVal)
    (a : ToolArgs) (hc : st.connected = true) (hr : st.reachable = true) :
    (handle_mcp_request st now
        { method := some "tools/call", rid := rid,
          toolName := some "add_crm_lead", args := a }).reply =
      some (textResult rid (addSuccessText a)) ∧
    (handle_mcp_request st now
        { method := some "tools/call", rid := rid,
          toolName := some "add_crm_lead", args := a }).store.sheet.rowsRaw =
      st.sheet.rowsRaw ++ [buildNewRow a now] ∧
    (∀ a2, (∀ k ∈ addArgKeys, lookupArg a k = lookupArg a2 k) →
      buildNewRow a now = buildNewRow a2 now) := by
  obtain ⟨c, rch, sh, et⟩ := st
  change c = true at hc
  change rch = true at hr
  subst hc
  subst hr
  refine ⟨rfl, rfl, ?_⟩
  intro a2 hag
  have h1 := hag "teamname" (by simp [addArgKeys])
  have h2 := hag "domain" (by simp [addArgKeys])
  have h3 := hag "platform" (by simp [addArgKeys])
  have h4 := hag "billingtype" (by simp [addArgKeys])
  have h5 := hag "type" (by simp [addArgKeys])
  have h6 := hag "contacts" (by simp [addArgKeys])
  simp only [buildNewRow, argD, h1, h2, h3, h4, h5, h6]

/-- Witness for add_no_validation: the empty-argument call appends exactly
the default-filled row. -/
theorem add_no_validation_witness :
    (exStore.connected = true ∧ exStore.reachable = true) ∧
    (handle_mcp_request exStore "2024-01-01 00:00:00" emptyAddReq).store.sheet.rowsRaw =
      exStore.sheet.rowsRaw ++ [buildNewRow noArgs "2024-01-01 00:00:00"] :=
  ⟨⟨rfl, rfl⟩,
    (add_no_validation exStore "2024-01-01 00:00:00" (.jnum 3) noArgs rfl rfl).2.1⟩

/-- Claim C7 counterexample: on a configured store whose sheet calls raise,
add_crm_lead answers with a -32603 error envelope and no result member,
refuting the claim that store unavailability never yields an error. -/
theorem add_unreachable_yields_error :
    (handle_mcp_request brokenStore "2024-01-01 00:00:00"
        { method := some "tools/call", rid := .jnum 2,
          toolName := some "add_crm_lead",
          args := { strs := [("teamname", "T"), ("domain", "d.com"),
                             ("platform", "SHOPIFY")], limit := none } }).reply =
      some (errEnvelope (.jnum 2) (-32603) "Failed to add lead: boom") ∧
    (errEnvelope (.jnum 2) (-32603) "Failed to add lead: boom").getObj
        "result" = none :=
  ⟨rfl, rfl⟩

/-- Claim C7 (amended): when the store is not configured, both tools answer
with success results carrying the not-connected texts; when the store is
configured but unreachable, the listing tool still answers with a success
result (the zero-match literal), but the adding tool answers with the
-32603 error built from the raised exception. -/
theorem store_unavailability_behavior :
    (∀ st now rid a, st.connected = false →
      (handle_mcp_request st now
          { method := some "tools/call", rid := rid,
            toolName := some "get_crm_leads", args := a }).reply =
        some (textResult rid notConnectedText) ∧
      (handle_mcp_request st now
          { method := some "tools/call", rid := rid,
            toolName := some "add_crm_lead", args := a }).reply =
        some (textResult rid cannotAddText)) ∧
    (∀ st now rid a, st.connected = true → st.reachable = false →
      (handle_mcp_request st now
          { method := some "tools/call", rid := rid,
            toolName := some "get_crm_leads", args := a }).reply =
        some (textResult rid noLeadsText) ∧
      (handle_mcp_request st now
          { method := some "tools/call", rid := rid,
            toolName := some "add_crm_lead", args := a }).reply =
        some (errEnvelope rid (-32603) ("Failed to add lead: " ++ st.errText))) := by
  constructor
  · intro st now rid a hconn
    obtain ⟨c, rch, sh, et⟩ := st
    change c = false at hconn
    subst hconn
    exact ⟨rfl, rfl⟩
  · intro st now rid a hconn hre
    obtain ⟨c, rch, sh, et⟩ := st
    change c = true at hconn
    change rch = false at hre
    subst hconn
    subst hre
    constructor
    · have hred : (handle_mcp_request ⟨true, false, sh, et⟩ now
          { method := some "tools/call", rid := rid,
            toolName := some "get_crm_leads", args := a }).reply =
        some (textResult rid (getCrmLeadsText ⟨true, false, sh, et⟩ a)) := rfl
      rw [hred]
      simp [getCrmLeadsText, getCrmLeadsData, get_filtered_data,
        format_lead_response]
    · rfl

/-- Witness for store_unavailability_behavior on the broken store. -/
theorem store_unavailability_behavior_witness :
    (brokenStore.connected = true ∧ brokenStore.reachable = false) ∧
    (handle_mcp_request brokenStore "t"
        { method := some "tools/call", rid := .jnull,
          toolName := some "get_crm_leads", args := noArgs }).reply =
      some (textResult .jnull noLeadsText) :=
  ⟨⟨rfl, rfl⟩,
    (store_unavailability_behavior.2 brokenStore "t" .jnull noArgs rfl rfl).1⟩

/-- Claim C8: any method string outside the handled set is answered with a
-32601 error naming the method, and any tools/call naming a tool outside
the catalogue is answered with a -32601 error naming the tool; both matches
are exact and case-sensitive. -/
theorem unknown_method_and_tool_errors :
    (∀ st now rid tn a m, m ∉ handledMethods →
      (handle_mcp_request st now
          { method := some m, rid := rid, toolName := tn, args := a }).reply =
        some (errEnvelope rid (-32601) ("Method \x27" ++ m ++ "\x27 not found"))) ∧
    (∀ st now rid a t, t ∉ handledTools →
      (handle_mcp_request st now
          { method := some "tools/call", rid := rid, toolName := some t,
            args := a }).reply =
        some (errEnvelope rid (-32601) ("Unknown tool: " ++ t))) := by
  constructor
  · intro st now rid tn a m hm
    simp only [handledMethods, List.mem_cons, List.not_mem_nil, or_false] at hm
    push_neg at hm
    obtain ⟨hm1, hm2, hm3, hm4⟩ := hm
    unfold handle_mcp_request
    split
    · rename_i heq; injection heq with h; exact absurd h hm1
    · rename_i heq; injection heq with h; exact absurd h hm2
    · rename_i heq; injection heq with h; exact absurd h hm3
    · rename_i heq; injection heq with h; exact absurd h hm4
    · simp [pyOpt]
  · intro st now rid a t ht
    simp only [handledTools, List.mem_cons, List.not_mem_nil, or_false] at ht
    push_neg at ht
    obtain ⟨ht1, ht2, ht3⟩ := ht
    have hred : handle_mcp_request st now
        { method := some "tools/call", rid := rid, toolName := some t,
          args := a } =
      handleToolsCall st now
        { method := some "tools/call", rid := rid, toolName := some t,
          args := a } := rfl
    rw [hred]
    unfold handleToolsCall
    split
    · rename_i heq; injection heq with h; exact absurd h ht1
    · rename_i heq; injection heq with h; exact absurd h ht2
    · rename_i heq; injection heq with h; exact absurd h ht3
    · simp [pyOpt]

/-- Witness for unknown_method_and_tool_errors at an unknown method and an
unknown tool. -/
theorem unknown_method_and_tool_errors_witness :
    ("frobnicate" ∉ handledMethods ∧ "unknown_tool" ∉ handledTools) ∧
    (handle_mcp_request exStore "t"
        { method := some "frobnicate", rid := .jnull, toolName := none,
          args := noArgs }).reply =
      some (errEnvelope .jnull (-32601) "Method \x27frobnicate\x27 not found") ∧
    (handle_mcp_request exStore "t"
        { method := some "tools/call", rid := .jnull,
          toolName := some "unknown_tool", args := noArgs }).reply =
      some (errEnvelope .jnull (-32601) "Unknown tool: unknown_tool") :=
  ⟨⟨by decide, by decide⟩,
    unknown_method_and_tool_errors.1 exStore "t" .jnull none noArgs
      "frobnicate" (by decide),
    unknown_method_and_tool_errors.2 exStore "t" .jnull noArgs
      "unknown_tool" (by decide)⟩

/-- Claim C10: an add_crm_lead call on a connected, reachable store appends
exactly one row, whose TagId is empty, whose CreatedAt column holds the
current timestamp, whose Status, CartRecoveryMode and (when the arguments
are absent) BillingType and Type columns hold the fixed defaults Active,
N/A, CONTRACT and 1P, and whose fourteen numeric counter columns all hold
the string 0. -/
theorem add_row_defaults (st : Store) (now : String) (rid : JVal)
    (a : ToolArgs) (hc : st.connected = true) (hr : st.reachable = true) :
    ((handle_mcp_request st now
        { method := some "tools/call", rid := rid,
          toolName := some "add_crm_lead", args := a }).store.sheet.rowsRaw =
      st.sheet.rowsRaw ++ [buildNewRow a now] ∧
     (handle_mcp_request st now
        { method := some "tools/call", rid := rid,
          toolName := some "add_crm_lead", args := a }).store.sheet.rowsRaw.length =
      st.sheet.rowsRaw.length + 1) ∧
    (buildNewRow a now)[0]? = some "" ∧
    (buildNewRow a now)[3]? = some now ∧
    (buildNewRow a now)[7]? = some "Active" ∧
    (buildNewRow a now)[14]? = some "N/A" ∧
    (lookupArg a "billingtype" = none →
      (buildNewRow a now)[11]? = some "CONTRACT") ∧
    (lookupArg a "type" = none → (buildNewRow a now)[12]? = some "1P") ∧
    (∀ j, 15 ≤ j → j ≤ 28 → (buildNewRow a now)[j]? = some "0") := by
  obtain ⟨c, rch, sh, et⟩ := st
  change c = true at hc
  change rch = true at hr
  subst hc
  subst hr
  refine ⟨⟨rfl, ?_⟩, rfl, rfl, rfl, rfl, ?_, ?_, ?_⟩
  · show (sh.rowsRaw ++ [buildNewRow a now]).length = sh.rowsRaw.length + 1
    simp
  · intro h
    simp [buildNewRow, argD, h]
  · intro h
    simp [buildNewRow, argD, h]
  · intro j h15 h28
    interval_cases j <;> rfl

/-- Witness for add_row_defaults: the plain three-argument call leaves the
BillingType column at its CONTRACT default. -/
theorem add_row_defaults_witness :
    (exStore.connected = true ∧ exStore.reachable = true ∧
      lookupArg plainAddArgs "billingtype" = none) ∧
    (buildNewRow plainAddArgs "2024-02-02 00:00:00")[11]? = some "CONTRACT" :=
  ⟨⟨rfl, rfl, rfl⟩,
    (add_row_defaults exStore "2024-02-02 00:00:00" .jnull plainAddArgs rfl
      rfl).2.2.2.2.2.1 rfl⟩

/-- Claim C6 (amended): there is no ping handler; a ping request falls
through to the unknown-method branch, yielding error -32601 with a message
naming ping, and leaves the store unchanged (no side effects). -/
theorem ping_unhandled (st : Store) (now : String) (rid : JVal)
    (tn : Option String) (a : ToolArgs) :
    (handle_mcp_request st now
        { method := some "ping", rid := rid, toolName := tn, args := a }).reply =
      some (errEnvelope rid (-32601) "Method \x27ping\x27 not found") ∧
    (handle_mcp_request st now
        { method := some "ping", rid := rid, toolName := tn, args := a }).store =
      st :=
  ⟨rfl, rfl⟩

end CrmMcp
